import Mathlib

/-!
Shallow embedding of `src/agents/logger.py` (`AgentLogger`): a console logger
that renders LLM API traffic.  Python strings are Lean `String`s, Python
slicing `s[:n]` is `pyTake`, Python dicts arriving as JSON-like data are
association lists over `JValue`, SDK objects reached through `getattr` are
records of `Option` fields, and every renderer returns the list of strings it
passes to `print` together with the logger state after the call.  A Python
exception (`KeyError`/`TypeError`) is an `Except.error` / an `error` field.
-/

/-- JSON-like values: the payloads the logger receives and serializes
(strings, integers, `None`, lists, dicts). -/
inductive JValue where
  | jnull : JValue
  | jstr : String → JValue
  | jnum : Int → JValue
  | jarr : List JValue → JValue
  | jobj : List (String × JValue) → JValue
deriving Repr, BEq

/-- Character count of a string (Python `len` on `str`). -/
def strLen (s : String) : Nat := s.data.length

/-- Python slice `s[:n]`: the first `n` characters, the whole string when it
is shorter (never raises). -/
def pyTake (s : String) (n : Nat) : String := String.mk (s.data.take n)

/-- Python `c * n` for a one-character string: `n` copies of the character. -/
def repChar (n : Nat) (c : Char) : String := String.mk (List.replicate n c)

/-- Python `s * n` for an arbitrary string. -/
def repStr (n : Nat) (s : String) : String := String.join (List.replicate n s)

/-- Python format `f"{s:<w}"`: pad on the right with spaces to width `w`. -/
def padToWidth (s : String) (w : Nat) : String :=
  s ++ repChar (w - strLen s) ' '

/-- Dict lookup `d[k]` / `d.get(k)`: the first binding for `k`. -/
def lookupKey (l : List (String × JValue)) (k : String) : Option JValue :=
  (l.find? (fun p => p.1 == k)).map (fun p => p.2)

/-- One hexadecimal digit, lower case. -/
def hexDigit (n : Nat) : Char :=
  if n < 10 then Char.ofNat (48 + n) else Char.ofNat (87 + n)

/-- JSON string escaping as Python `json.dumps(..., ensure_ascii=False)`
performs it: quote, backslash and control characters are escaped, everything
else (including non-ASCII) passes through. -/
def jsonEscapeChar (c : Char) : String :=
  if c = Char.ofNat 34 then "\\\"" else
  if c = Char.ofNat 92 then "\\\\" else
  if c = Char.ofNat 10 then "\\n" else
  if c = Char.ofNat 13 then "\\r" else
  if c = Char.ofNat 9 then "\\t" else
  if c = Char.ofNat 8 then "\\b" else
  if c = Char.ofNat 12 then "\\f" else
  if c.toNat < 32 then
    "\\u00" ++ String.mk [hexDigit (c.toNat / 16), hexDigit (c.toNat % 16)]
  else String.singleton c

/-- A JSON string literal: quoted and escaped. -/
def jsonQuote (s : String) : String :=
  "\"" ++ String.join (s.data.map jsonEscapeChar) ++ "\""

mutual
/-- `json.dumps(v, ensure_ascii=False, indent=ind)` at nesting level `lvl`:
multi-line output, each nesting level indented by `ind` further spaces. -/
def jsonDumpVal (ind lvl : Nat) : JValue → String
  | .jnull => "null"
  | .jstr s => jsonQuote s
  | .jnum n => toString n
  | .jarr [] => "[]"
  | .jarr (v :: vs) =>
      "[\n" ++ String.intercalate ",\n" (jsonDumpItems ind (lvl + 1) (v :: vs)) ++
      "\n" ++ repChar (ind * lvl) ' ' ++ "]"
  | .jobj [] => "\x7b\x7d"
  | .jobj (f :: fs) =>
      "\x7b\n" ++ String.intercalate ",\n" (jsonDumpFields ind (lvl + 1) (f :: fs)) ++
      "\n" ++ repChar (ind * lvl) ' ' ++ "\x7d"

/-- The lines for the elements of a JSON array, each prefixed by its
indentation. -/
def jsonDumpItems (ind lvl : Nat) : List JValue → List String
  | [] => []
  | v :: vs =>
      (repChar (ind * lvl) ' ' ++ jsonDumpVal ind lvl v) :: jsonDumpItems ind lvl vs

/-- The lines for the members of a JSON object, `"key": value`, each prefixed
by its indentation. -/
def jsonDumpFields (ind lvl : Nat) : List (String × JValue) → List String
  | [] => []
  | (k, v) :: fs =>
      (repChar (ind * lvl) ' ' ++ jsonQuote k ++ ": " ++ jsonDumpVal ind lvl v) ::
        jsonDumpFields ind lvl fs
end

/-- The lines of a `json.dumps` rendering (Python `formatted.split("\n")`). -/
def jsonDumpLines (ind : Nat) (v : JValue) : List String :=
  (jsonDumpVal ind 0 v).splitOn "\n"

mutual
/-- Python `repr` of a JSON-like value (`None`, quoted strings, `[...]`,
dict display); string contents are shown as-is. -/
def pyRepr : JValue → String
  | .jnull => "None"
  | .jstr s => "\x27" ++ s ++ "\x27"
  | .jnum n => toString n
  | .jarr vs => "[" ++ String.intercalate ", " (pyReprItems vs) ++ "]"
  | .jobj fs => "\x7b" ++ String.intercalate ", " (pyReprFields fs) ++ "\x7d"

/-- `repr` of the elements of a list. -/
def pyReprItems : List JValue → List String
  | [] => []
  | v :: vs => pyRepr v :: pyReprItems vs

/-- `repr` of the members of a dict display. -/
def pyReprFields : List (String × JValue) → List String
  | [] => []
  | (k, v) :: fs => ("\x27" ++ k ++ "\x27: " ++ pyRepr v) :: pyReprFields fs
end

/-- Python `str` of a JSON-like value: a bare string for `str`, `repr`
otherwise. -/
def pyStrOf : JValue → String
  | .jstr s => s
  | v => pyRepr v

/-- The `COLORS` table of `AgentLogger`: ANSI escape sequences by name. -/
def COLORS : String → Option String
  | "reset" => some "\x1b[0m"
  | "bold" => some "\x1b[1m"
  | "dim" => some "\x1b[2m"
  | "underline" => some "\x1b[4m"
  | "red" => some "\x1b[31m"
  | "green" => some "\x1b[32m"
  | "yellow" => some "\x1b[33m"
  | "blue" => some "\x1b[34m"
  | "magenta" => some "\x1b[35m"
  | "cyan" => some "\x1b[36m"
  | "white" => some "\x1b[37m"
  | "bg_black" => some "\x1b[40m"
  | "bg_red" => some "\x1b[41m"
  | "bg_green" => some "\x1b[42m"
  | "bg_yellow" => some "\x1b[43m"
  | "bg_blue" => some "\x1b[44m"
  | "bg_magenta" => some "\x1b[45m"
  | "bg_cyan" => some "\x1b[46m"
  | _ => none

/-- `AgentLogger._color`: `COLORS.get(color, '') + text + COLORS['reset']`. -/
def color (text c : String) : String :=
  ((COLORS c).getD "") ++ text ++ "\x1b[0m"

/-- The mutable fields of an `AgentLogger` instance: `verbose`, `show_raw`
and the `_iteration` counter. -/
structure LoggerState where
  verbose : Bool
  show_raw : Bool
  iteration : Nat
deriving Repr, DecidableEq

/-- An SDK content block reached through `getattr(block, field, default)`:
each attribute the logger ever reads, absent attributes as `none`. -/
structure AttrBlock where
  type : Option String := none
  text : Option String := none
  id : Option String := none
  name : Option String := none
  input : List (String × JValue) := []
  tool_use_id : Option String := none

/-- A content block as the logger receives it: either a plain dict
(`isinstance(block, dict)`) or an attribute-bearing SDK object. -/
inductive Block where
  | dict : List (String × JValue) → Block
  | attr : AttrBlock → Block

/-- The `content` value of a message: a plain string, a list of blocks, or
some other iterable of SDK objects (the code's final `else` branch), carrying
its blocks and its Python `str()` rendering. -/
inductive Content where
  | cstr : String → Content
  | clist : List Block → Content
  | cattrs : List AttrBlock → String → Content

/-- A message dict: `msg["role"]` raises `KeyError` when `role` is `none`;
`msg.get("content", "")` falls back to the empty string. -/
structure Message where
  role : Option String
  content : Option Content

/-- `response.usage`. -/
structure Usage where
  input_tokens : Int
  output_tokens : Int

/-- An SDK response object as read by `response_raw`: the attributes accessed
directly always exist; `stop_reason`/`stop_sequence` may be `None`. -/
structure SdkResponse where
  id : String
  model : String
  role : String
  stop_reason : Option String
  stop_sequence : Option String
  usage : Usage
  content : List AttrBlock

/-- `None`-able string to JSON. -/
def optStr : Option String → JValue
  | none => .jnull
  | some s => .jstr s

/-- Python `str(x)` for the optional `type` tag (`str(None) = "None"`). -/
def strOfOptTag : Option String → String
  | none => "None"
  | some s => s

-- =========================================================================
-- Base output methods
-- =========================================================================

/-- `AgentLogger.separator`: a horizontal rule, suppressed unless verbose. -/
def separator (st : LoggerState) (title : String) (ch : String) (width : Nat) :
    List String × LoggerState :=
  if st.verbose = false then ([], st) else
  let line :=
    if title ≠ "" then
      repStr 10 ch ++ " " ++ title ++ " " ++ repStr (width - 12 - strLen title) ch
    else repStr width ch
  ([color ("\n" ++ line) "dim"], st)

/-- `AgentLogger.header`: always prints. -/
def header (st : LoggerState) (text session_name : String) :
    List String × LoggerState :=
  ([color ("\n" ++ repChar 80 '═') "cyan"] ++
   (if session_name ≠ "" then [color ("  [" ++ session_name ++ "]") "dim"] else []) ++
   [color ("  " ++ text) "bold", color (repChar 80 '═') "cyan"], st)

/-- `AgentLogger.section`: a section heading, suppressed unless verbose. -/
def sectionHeading (st : LoggerState) (text icon : String) :
    List String × LoggerState :=
  if st.verbose = false then ([], st) else
  ([color ("\n" ++ icon ++ " " ++ text) "cyan"], st)

/-- `AgentLogger.key_value`: the single line it prints. -/
def key_value (key value : String) (indent : Nat) (c : String) : String :=
  repChar indent ' ' ++ color (key ++ ":") c ++ " " ++ value

/-- `AgentLogger.json_block`: a titled JSON dump, suppressed unless verbose.
`json.dumps` on `JValue` data always succeeds, so the `except` fallback of
the source is unreachable here. -/
def json_block (st : LoggerState) (title : String) (data : JValue)
    (indent : Nat) (c : String) : List String × LoggerState :=
  if st.verbose = false then ([], st) else
  let spaces := repChar indent ' '
  ((spaces ++ color (title ++ ":") c ++ "") ::
    (jsonDumpLines (indent + 2) data).map (fun l => color (spaces ++ "  " ++ l) "dim"),
   st)

-- =========================================================================
-- Content normalizer (compact structure preview) and serializer
-- =========================================================================

/-- The summary token for an attribute-form block in the structure preview
(`request_raw`, lines using `getattr` with defaults). -/
def attrSummary (b : AttrBlock) : JValue :=
  let btype := b.type.getD "unknown"
  if btype = "tool_result" then
    .jstr ("tool_result(id=" ++ pyTake (b.tool_use_id.getD "") 16 ++ "...)")
  else if btype = "tool_use" then
    .jstr ("tool_use(name=" ++ b.name.getD "" ++ ")")
  else .jstr btype

/-- Python `v == "tag"` for a JSON-like value: true exactly when `v` is that
string. -/
def isTag (v : JValue) (t : String) : Bool :=
  match v with
  | .jstr s => s == t
  | _ => false

/-- Python slicing `v[:n]` on an arbitrary value: defined for strings and
lists, a `TypeError` otherwise. -/
def pySliceVal (v : JValue) (n : Nat) : Except String JValue :=
  match v with
  | .jstr s => .ok (.jstr (pyTake s n))
  | .jarr l => .ok (.jarr (l.take n))
  | _ => .error "TypeError"

/-- The summary token for one content block of a list-form message content in
`request_raw` (dict blocks via `.get` with defaults, others via `getattr`).
Slicing a non-string `tool_use_id` raises. -/
def blockSummary (b : Block) : Except String JValue :=
  match b with
  | .attr a => .ok (attrSummary a)
  | .dict fields =>
    let btype := (lookupKey fields "type").getD (.jstr "unknown")
    if isTag btype "tool_result" then
      match (lookupKey fields "tool_use_id").getD (.jstr "") with
      | .jstr s => .ok (.jstr ("tool_result(id=" ++ pyTake s 16 ++ "...)"))
      | v => (pySliceVal v 16).map (fun sl =>
          .jstr ("tool_result(id=" ++ pyStrOf sl ++ "...)"))
    else if isTag btype "tool_use" then
      .ok (.jstr ("tool_use(name=" ++ pyStrOf ((lookupKey fields "name").getD (.jstr "")) ++ ")"))
    else .ok btype

/-- The summary tokens for a whole block list, in input order; the first
raising block aborts the loop. -/
def blockSummaries : List Block → Except String (List JValue)
  | [] => .ok []
  | b :: bs => do
    let s ← blockSummary b
    let r ← blockSummaries bs
    .ok (s :: r)

/-- `system[:100] + "..." if len(system) > 100 else system`: the system field
of the request structure preview. -/
def previewSystem (system : String) : String :=
  if strLen system > 100 then pyTake system 100 ++ "..." else system

/-- The preview entry for one tool: `{"name": t["name"], "description":
t["description"][:50] + "..."}`; raises `KeyError` on a missing key and
`TypeError` when the description cannot be sliced and concatenated. -/
def previewTool (t : List (String × JValue)) : Except String JValue := do
  let name ← match lookupKey t "name" with
    | some v => Except.ok v
    | none => Except.error "KeyError: name"
  let desc ← match lookupKey t "description" with
    | some v => Except.ok v
    | none => Except.error "KeyError: description"
  match desc with
  | .jstr d => .ok (.jobj [("name", name), ("description", .jstr (pyTake d 50 ++ "..."))])
  | _ => .error "TypeError"

/-- The preview entries for the tool list, in order. -/
def previewTools : List (List (String × JValue)) → Except String (List JValue)
  | [] => .ok []
  | t :: ts => do
    let p ← previewTool t
    let r ← previewTools ts
    .ok (p :: r)

/-- The preview entry for one message in `request_raw`: `{"role":
msg["role"]}` (raising on a missing role) plus the simplified content. -/
def previewMessage (m : Message) : Except String JValue := do
  let role ← match m.role with
    | some r => Except.ok r
    | none => Except.error "KeyError: role"
  let centry : JValue ← match m.content.getD (Content.cstr "") with
    | .cstr s => Except.ok (JValue.jstr ("<text: " ++ toString (strLen s) ++ " chars>"))
    | .clist bs => (blockSummaries bs).map JValue.jarr
    | .cattrs bs _ => Except.ok (JValue.jarr (bs.map attrSummary))
  .ok (.jobj [("role", .jstr role), ("content", centry)])

/-- The preview entries for the message list, in order. -/
def previewMessages : List Message → Except String (List JValue)
  | [] => .ok []
  | m :: ms => do
    let p ← previewMessage m
    let r ← previewMessages ms
    .ok (p :: r)

/-- `AgentLogger._serialize_content`: dict blocks pass through unchanged;
attribute blocks are rebuilt by variant, any variant other than `text` and
`tool_use` keeping only its stringified type tag. -/
def serialize_content (content : List Block) : List JValue :=
  content.map (fun b =>
    match b with
    | .dict fields => .jobj fields
    | .attr a =>
      match a.type with
      | some "text" => .jobj [("type", .jstr "text"), ("text", .jstr (a.text.getD ""))]
      | some "tool_use" => .jobj [("type", .jstr "tool_use"), ("id", .jstr (a.id.getD "")),
          ("name", .jstr (a.name.getD "")), ("input", .jobj a.input)]
      | t => .jobj [("type", .jstr (strOfOptTag t))])

/-- `AgentLogger._serialize_messages`: `{"role": msg["role"]}` (raising on a
missing role) plus content as a string, a serialized block list, or the
`str()` fallback. -/
def serialize_messages : List Message → Except String (List JValue)
  | [] => .ok []
  | m :: ms => do
    let role ← match m.role with
      | some r => Except.ok r
      | none => Except.error "KeyError: role"
    let c : JValue :=
      match m.content.getD (Content.cstr "") with
      | .cstr s => .jstr s
      | .clist bs => .jarr (serialize_content bs)
      | .cattrs _ reprS => .jstr reprS
    let r ← serialize_messages ms
    .ok (.jobj [("role", .jstr role), ("content", c)] :: r)

-- =========================================================================
-- Raw API data display
-- =========================================================================

/-- `AgentLogger._print_structured_json`: the title line, then every dump
line indented four spaces and dimmed (both source branches of the highlight
`if` print the same string; `json.dumps` on `JValue` data never fails). -/
def print_structured_json (data : JValue) (title : String) : List String :=
  color ("\n  📊 " ++ title ++ ":") "cyan" ::
    (jsonDumpLines 4 data).map (fun l => color ("    " ++ l) "dim")

/-- The per-line clipping of `_print_code_block`: a line longer than 74
characters becomes its first 71 characters plus `"..."`. -/
def truncLine (l : String) : String :=
  if strLen l > 74 then pyTake l 71 ++ "..." else l

/-- One framed body line of `_print_code_block`: `f"  │ {line:<74} │"`,
dimmed. -/
def frameLine (l : String) : String :=
  color ("  │ " ++ padToWidth (truncLine l) 74 ++ " │") "dim"

/-- `AgentLogger._print_code_block`: a bordered code block around the
`json.dumps(data, ensure_ascii=False, indent=2)` lines, each clipped to 74
characters (`json.dumps` on `JValue` data never fails). -/
def print_code_block (data : JValue) : List String :=
  color ("  ┌" ++ repChar 76 '─' ++ "┐") "dim" ::
    (jsonDumpLines 2 data).map frameLine ++
    [color ("  └" ++ repChar 76 '─' ++ "┘") "dim"]

/-- The compact `request_data` structure of `request_raw`. -/
def requestStructure (model : String) (max_tokens : Int) (system : String)
    (toolPreviews msgPreviews : List JValue) : JValue :=
  .jobj [("model", .jstr model), ("max_tokens", .jnum max_tokens),
         ("system", .jstr (previewSystem system)),
         ("tools", .jarr toolPreviews), ("messages", .jarr msgPreviews)]

/-- The `full_request` dict of `request_raw`: the untruncated request. -/
def fullRequest (model : String) (max_tokens : Int) (system : String)
    (tools : List (List (String × JValue))) (serializedMsgs : List JValue) : JValue :=
  .jobj [("model", .jstr model), ("max_tokens", .jnum max_tokens),
         ("system", .jstr system),
         ("tools", .jarr (tools.map JValue.jobj)),
         ("messages", .jarr serializedMsgs)]

/-- The banner of `request_raw`. -/
def requestBanner : List String :=
  [color ("\n" ++ "┌" ++ repChar 78 '─' ++ "┐") "magenta",
   color ("│  📤 RAW API REQUEST" ++ repChar 57 ' ' ++ "│") "magenta",
   color ("└" ++ repChar 78 '─' ++ "┘") "magenta"]

/-- What a renderer that can raise produced: the lines printed before the
call returned or raised, and the propagated exception if any. -/
structure ROut where
  lines : List String
  error : Option String
deriving Repr, DecidableEq

/-- `AgentLogger.request_raw`: no-op unless `show_raw`; banner, compact
structure preview, then the full copy-paste-ready request JSON in a code
block.  Missing `t["name"]`/`t["description"]`/`msg["role"]` keys raise,
after the banner has been printed. -/
def request_raw (st : LoggerState) (model system : String)
    (messages : List Message) (tools : List (List (String × JValue)))
    (max_tokens : Int) : ROut × LoggerState :=
  if st.show_raw = false then (⟨[], none⟩, st) else
  match previewTools tools with
  | .error e => (⟨requestBanner, some e⟩, st)
  | .ok tps =>
    match previewMessages messages with
    | .error e => (⟨requestBanner, some e⟩, st)
    | .ok mps =>
      let request_data := requestStructure model max_tokens system tps mps
      let structured := print_structured_json request_data "Request Structure"
      let fullTitle := color "\n  📄 Full Request JSON (copy-paste ready):" "cyan"
      match serialize_messages messages with
      | .error e => (⟨requestBanner ++ structured ++ [fullTitle], some e⟩, st)
      | .ok sm =>
        (⟨requestBanner ++ structured ++ [fullTitle] ++
            print_code_block (fullRequest model max_tokens system tools sm), none⟩, st)

/-- The compact structure entry for one response content block
(`response_raw`, via `getattr` with defaults). -/
def responseBlockEntry (b : AttrBlock) : JValue :=
  let btype := b.type.getD "unknown"
  if btype = "text" then
    .jobj [("type", .jstr btype),
           ("text", .jstr ("<" ++ toString (strLen (b.text.getD "")) ++ " chars>"))]
  else if btype = "tool_use" then
    .jobj [("type", .jstr btype), ("id", .jstr (b.id.getD "")),
           ("name", .jstr (b.name.getD "")), ("input", .jobj b.input)]
  else .jobj [("type", .jstr btype)]

/-- The shared id/model/role/stop/usage fields of both response dicts. -/
def responseCommon (r : SdkResponse) : List (String × JValue) :=
  [("id", .jstr r.id), ("model", .jstr r.model), ("role", .jstr r.role),
   ("stop_reason", optStr r.stop_reason), ("stop_sequence", optStr r.stop_sequence),
   ("usage", .jobj [("input_tokens", .jnum r.usage.input_tokens),
                    ("output_tokens", .jnum r.usage.output_tokens)])]

/-- `AgentLogger.response_raw`: no-op unless `show_raw`; banner, compact
structure preview, then the full response JSON in a code block. -/
def response_raw (st : LoggerState) (r : SdkResponse) :
    List String × LoggerState :=
  if st.show_raw = false then ([], st) else
  let banner :=
    [color ("\n" ++ "┌" ++ repChar 78 '─' ++ "┐") "blue",
     color ("│  📥 RAW API RESPONSE" ++ repChar 56 ' ' ++ "│") "blue",
     color ("└" ++ repChar 78 '─' ++ "┘") "blue"]
  let response_data : JValue :=
    .jobj (responseCommon r ++ [("content", .jarr (r.content.map responseBlockEntry))])
  let full_response : JValue :=
    .jobj (responseCommon r ++
      [("content", .jarr (serialize_content (r.content.map Block.attr)))])
  (banner ++ print_structured_json response_data "Response Structure" ++
    [color "\n  📄 Full Response JSON (copy-paste ready):" "cyan"] ++
    print_code_block full_response, st)

-- =========================================================================
-- Loop, snapshot, tool and summary renderers
-- =========================================================================

/-- `AgentLogger.loop_iteration`: no-op unless verbose; otherwise stores the
iteration number and prints a framed banner. -/
def loop_iteration (st : LoggerState) (iteration : Nat) :
    List String × LoggerState :=
  if st.verbose = false then ([], st) else
  ([color ("\n" ++ "┌" ++ repChar 78 '─' ++ "┐") "cyan",
    color ("│  🔄 LOOP ITERATION #" ++ padToWidth (toString iteration) 62 ++ "│") "cyan",
    color ("└" ++ repChar 78 '─' ++ "┘") "cyan"],
   { st with iteration := iteration })

/-- The display color for a role in `messages_snapshot`. -/
def roleColor (role : String) : String :=
  if role = "user" then "green" else if role = "assistant" then "yellow" else "white"

/-- The `[:60]` content preview of `messages_snapshot` for string content. -/
def snapshotPreview (content : String) : String :=
  pyTake content 60 ++ (if strLen content > 60 then "..." else "")

/-- The variant-tag list shown by `messages_snapshot` for list content:
`b.get('type', 'unknown')` for dicts, `getattr(b, 'type', 'unknown')`
otherwise. -/
def snapshotBlockTypes (bs : List Block) : List JValue :=
  bs.map (fun b =>
    match b with
    | .dict f => (lookupKey f "type").getD (.jstr "unknown")
    | .attr a => .jstr (a.type.getD "unknown"))

/-- The line(s) `messages_snapshot` prints for message number `i`: one line
for string or list content, nothing for any other content shape (the source
has no final `else`). -/
def snapshotLine (i : Nat) (m : Message) : List String :=
  let role := m.role.getD "unknown"
  match m.content.getD (Content.cstr "") with
  | .cstr s =>
      ["    [" ++ toString i ++ "] " ++ color role (roleColor role) ++ ": " ++
        color (snapshotPreview s) "dim"]
  | .clist bs =>
      ["    [" ++ toString i ++ "] " ++ color role (roleColor role) ++ ": " ++
        color (pyRepr (.jarr (snapshotBlockTypes bs))) "dim"]
  | .cattrs _ _ => []

/-- The indexed body of the `messages_snapshot` loop (`enumerate`). -/
def snapshotLines (i : Nat) : List Message → List String
  | [] => []
  | m :: ms => snapshotLine i m ++ snapshotLines (i + 1) ms

/-- `AgentLogger.messages_snapshot`: no-op unless verbose; title, count and
one preview line per string- or list-content message. -/
def messages_snapshot (st : LoggerState) (messages : List Message)
    (title : String) : List String × LoggerState :=
  if st.verbose = false then ([], st) else
  (color ("\n  📋 " ++ title) "blue" ::
    color ("  Total messages: " ++ toString messages.length) "dim" ::
    snapshotLines 0 messages, st)

/-- `tool_id[:24] + "..."`: the id display form shared by `tool_call` and
`tool_result`. -/
def idDisplay (tool_id : String) : String := pyTake tool_id 24 ++ "..."

/-- One `input` line of `tool_call`: the value is stringified and clipped to
60 characters. -/
def toolInputLine (kv : String × JValue) : String :=
  let vs := pyStrOf kv.2
  let vc := if strLen vs > 60 then pyTake vs 60 ++ "..." else vs
  color ("      " ++ kv.1 ++ ": " ++ vc) "dim"

/-- `AgentLogger.tool_call`: always prints; the id line appears only when
`tool_id` is truthy (non-empty). -/
def tool_call (st : LoggerState) (name : String)
    (input_data : List (String × JValue)) (tool_id : String) :
    List String × LoggerState :=
  (color "\n  ⚡ TOOL CALL" "green" ::
    (if tool_id ≠ "" then
      [key_value "id" (color (idDisplay tool_id) "dim") 4 "green"] else []) ++
    [key_value "name" (color name "green") 4 "green",
     key_value "input" "" 4 "green"] ++
    input_data.map toolInputLine, st)

/-- `AgentLogger.tool_result`: always prints; red/❌ on error, blue/✓
otherwise; content clipped to 300 characters. -/
def tool_result (st : LoggerState) (tool_id content : String)
    (is_error : Bool) : List String × LoggerState :=
  let c := if is_error then "red" else "blue"
  let icon := if is_error then "❌" else "✓"
  let content_preview := pyTake content 300 ++ (if strLen content > 300 then "..." else "")
  ([color ("\n  " ++ icon ++ " TOOL RESULT") c,
    key_value "tool_use_id" (idDisplay tool_id) 4 c,
    key_value "content" (color ("\"" ++ content_preview ++ "\"") "dim") 4 c], st)

/-- `AgentLogger._timestamp` applied to an already-formatted wall-clock
reading (the clock itself is outside the model). -/
def timestampOf (now : String) : String := color now "dim"

/-- `AgentLogger.llm_request_summary`: no-op unless verbose. -/
def llm_request_summary (st : LoggerState) (model : String)
    (messages_count tools_count : Nat) (now : String) :
    List String × LoggerState :=
  if st.verbose = false then ([], st) else
  ([color "\n  📤 LLM REQUEST SUMMARY" "magenta",
    key_value "model" model 4 "magenta",
    key_value "messages_count" (toString messages_count) 4 "magenta",
    key_value "tools_count" (toString tools_count) 4 "magenta",
    key_value "timestamp" (timestampOf now) 4 "magenta"], st)

/-- `usage.get(k, 0)` for the usage dict of `llm_response_summary`. -/
def usageGet (usage : List (String × Int)) (k : String) : Int :=
  ((usage.find? (fun p => p.1 == k)).map (fun p => p.2)).getD 0

/-- `AgentLogger.llm_response_summary`: no-op unless verbose. -/
def llm_response_summary (st : LoggerState) (stop_reason : String)
    (usage : List (String × Int)) (content_blocks : Nat) :
    List String × LoggerState :=
  if st.verbose = false then ([], st) else
  let stop_color := if stop_reason = "tool_use" then "yellow" else "green"
  ([color "\n  📥 LLM RESPONSE SUMMARY" "magenta",
    key_value "stop_reason" (color stop_reason stop_color) 4 "magenta",
    key_value "content_blocks" (toString content_blocks) 4 "magenta",
    key_value "usage" ("input=" ++ toString (usageGet usage "input_tokens") ++
      ", output=" ++ toString (usageGet usage "output_tokens")) 4 "magenta"], st)

/-- The `type` tag of a block as `response_content_blocks` reads it. -/
def rcbType (b : Block) : JValue :=
  match b with
  | .dict f => (lookupKey f "type").getD (.jstr "unknown")
  | .attr a => .jstr (a.type.getD "unknown")

/-- The `text` value of a block as `response_content_blocks` reads it;
clipping and measuring a non-string raises `TypeError`. -/
def rcbTextPreview (b : Block) : Except String String :=
  match b with
  | .attr a => .ok (let t := a.text.getD "";
      pyTake t 100 ++ (if strLen t > 100 then "..." else ""))
  | .dict f =>
    match (lookupKey f "text").getD (.jstr "") with
    | .jstr t => .ok (pyTake t 100 ++ (if strLen t > 100 then "..." else ""))
    | _ => .error "TypeError"

/-- The `name` value of a block as `response_content_blocks` reads it. -/
def rcbName (b : Block) : JValue :=
  match b with
  | .dict f => (lookupKey f "name").getD (.jstr "")
  | .attr a => .jstr (a.name.getD "")

/-- The indexed body of the `response_content_blocks` loop: one line for
`text` and `tool_use` blocks, nothing for the rest; a raise aborts the loop
but keeps the lines already printed. -/
def rcbLines (i : Nat) : List Block → List String × Option String
  | [] => ([], none)
  | b :: bs =>
    let here : Except String (List String) :=
      if isTag (rcbType b) "text" then
        (rcbTextPreview b).map (fun p =>
          [key_value ("Block [" ++ toString i ++ "]")
            ("type=" ++ pyStrOf (rcbType b) ++ ", text=\"" ++ p ++ "\"") 4 "yellow"])
      else if isTag (rcbType b) "tool_use" then
        .ok [key_value ("Block [" ++ toString i ++ "]")
          ("type=" ++ pyStrOf (rcbType b) ++ ", name=" ++ pyStrOf (rcbName b)) 4 "yellow"]
      else .ok []
    match here with
    | .error e => ([], some e)
    | .ok hl =>
      let (rl, re) := rcbLines (i + 1) bs
      (hl ++ rl, re)

/-- `AgentLogger.response_content_blocks`: no-op unless verbose; a section
heading then one summary line per text/tool_use block. -/
def response_content_blocks (st : LoggerState) (blocks : List Block) :
    ROut × LoggerState :=
  if st.verbose = false then (⟨[], none⟩, st) else
  let head := (sectionHeading st "Response Content Blocks" "📦").1
  let (ls, e) := rcbLines 0 blocks
  (⟨head ++ ls, e⟩, st)

/-- `AgentLogger.loop_end`: delegates to `section`, so it inherits the
verbose gate. -/
def loop_end (st : LoggerState) (reason : String) :
    List String × LoggerState :=
  sectionHeading st ("🏁 LOOP END: " ++ reason) "🛑"

/-- `AgentLogger.user_input`: a (verbose-gated) separator, then the query
line, which always prints. -/
def user_input (st : LoggerState) (query : String) :
    List String × LoggerState :=
  ((separator st "USER INPUT" "─" 80).1 ++ ["  " ++ query], st)

-- =========================================================================
-- Definitions used only to state claims
-- =========================================================================

/-- The fixed text an id line of `tool_call` starts with: four spaces, the
green `id:` key, a space. -/
def idLineLead : String := "    " ++ color "id:" "green" ++ " "

/-- How many printed lines are id lines. -/
def countIdLines (ls : List String) : Nat :=
  ls.countP (fun l => idLineLead.data.isPrefixOf l.data)

/-- Whether some printed line contains `s` as a contiguous substring. -/
def linesContain (ls : List String) (s : String) : Bool :=
  ls.any (fun l => decide (s.data <:+: l.data))

/-- A 150-character system prompt. -/
def sys150 : String := String.mk (List.replicate 150 'a')

-- =========================================================================
-- Helper lemmas
-- =========================================================================

theorem strLen_append (a b : String) : strLen (a ++ b) = strLen a + strLen b := by
  simp [strLen]

theorem strLen_pyTake (s : String) (n : Nat) :
    strLen (pyTake s n) = min n (strLen s) := by
  simp [strLen, pyTake]

theorem strLen_repChar (n : Nat) (c : Char) : strLen (repChar n c) = n := by
  simp [strLen, repChar]

theorem strLen_padToWidth (s : String) (w : Nat) (h : strLen s ≤ w) :
    strLen (padToWidth s w) = w := by
  simp [padToWidth, strLen_append, strLen_repChar]; omega

theorem strLen_dim (t : String) : strLen (color t "dim") = strLen t + 8 := by
  simp only [color, COLORS, Option.getD_some, strLen_append]
  have h1 : strLen "\x1b[2m" = 4 := rfl
  have h2 : strLen "\x1b[0m" = 4 := rfl
  omega

theorem truncLine_le (l : String) : strLen (truncLine l) ≤ 74 := by
  unfold truncLine
  split
  · simp [strLen_append, strLen_pyTake]
    have : strLen "..." = 3 := rfl
    omega
  · omega

theorem frameLine_len (l : String) : strLen (frameLine l) = 88 := by
  unfold frameLine
  rw [strLen_dim, strLen_append, strLen_append,
    strLen_padToWidth _ _ (truncLine_le l)]
  rfl

theorem print_code_block_line_len (d : JValue) :
    ∀ l ∈ print_code_block d, strLen l = 88 := by
  intro l hl
  unfold print_code_block at hl
  simp only [List.mem_cons, List.mem_append, List.mem_map,
    List.mem_singleton] at hl
  rcases hl with (h | ⟨x, _, hx⟩) | (h | h)
  · subst h
    rw [strLen_dim, strLen_append, strLen_append, strLen_repChar]; decide
  · rw [← hx]; exact frameLine_len x
  · subst h
    rw [strLen_dim, strLen_append, strLen_append, strLen_repChar]; decide
  · simp at h

theorem not_infix_of_shorter (s l : String) (h : strLen l < strLen s) :
    ¬ s.data <:+: l.data := by
  intro hinf
  have hle := hinf.length_le
  unfold strLen at h
  omega

-- =========================================================================
-- Claims
-- =========================================================================

/-- C5: with `show_raw = false` (and `verbose` at its default `true`),
`request_raw` and `response_raw` write zero lines and raise nothing, for
every input, while `tool_call`, `tool_result`, `loop_end` and `user_input`
still produce output. -/
theorem C5_show_raw_gate (it : Nat) (model system : String)
    (msgs : List Message) (tools : List (List (String × JValue))) (mt : Int)
    (r : SdkResponse) (name : String) (inp : List (String × JValue))
    (tid ct reason q : String) (err : Bool) :
    (request_raw ⟨true, false, it⟩ model system msgs tools mt).1 = ⟨[], none⟩ ∧
    (response_raw ⟨true, false, it⟩ r).1 = [] ∧
    (tool_call ⟨true, false, it⟩ name inp tid).1 ≠ [] ∧
    (tool_result ⟨true, false, it⟩ tid ct err).1 ≠ [] ∧
    (loop_end ⟨true, false, it⟩ reason).1 ≠ [] ∧
    (user_input ⟨true, false, it⟩ q).1 ≠ [] := by
  refine ⟨rfl, rfl, by simp [tool_call], by simp [tool_result], ?_, ?_⟩
  · simp [loop_end, sectionHeading]
  · simp [user_input]

/-- C9: `verbose` and `show_raw` are never mutated by any renderer; every
renderer except `loop_iteration` returns the state unchanged, and
`loop_iteration` changes at most the `_iteration` counter, which it sets to
its argument whenever it actually runs (verbose). -/
theorem C9_state_frame (st : LoggerState) (sr : Bool) (it n : Nat)
    (model system t ch sn txt icon ttl q reason now tid ct : String)
    (w indent cnt1 cnt2 : Nat) (c : String) (d : JValue)
    (msgs : List Message) (tools : List (List (String × JValue))) (mt : Int)
    (r : SdkResponse) (inp : List (String × JValue)) (usage : List (String × Int))
    (bs : List Block) (err : Bool) :
    (separator st t ch w).2 = st ∧
    (header st txt sn).2 = st ∧
    (sectionHeading st txt icon).2 = st ∧
    (json_block st ttl d indent c).2 = st ∧
    (request_raw st model system msgs tools mt).2 = st ∧
    (response_raw st r).2 = st ∧
    (messages_snapshot st msgs ttl).2 = st ∧
    (tool_call st t inp tid).2 = st ∧
    (tool_result st tid ct err).2 = st ∧
    (llm_request_summary st model cnt1 cnt2 now).2 = st ∧
    (llm_response_summary st reason usage cnt1).2 = st ∧
    (response_content_blocks st bs).2 = st ∧
    (loop_end st reason).2 = st ∧
    (user_input st q).2 = st ∧
    (loop_iteration st n).2.verbose = st.verbose ∧
    (loop_iteration st n).2.show_raw = st.show_raw ∧
    (loop_iteration ⟨true, sr, it⟩ n).2.iteration = n := by
  refine ⟨?_, rfl, ?_, ?_, ?_, ?_, ?_, rfl, rfl, ?_, ?_, ?_, ?_, rfl, ?_, ?_, rfl⟩
  · unfold separator; split <;> rfl
  · unfold sectionHeading; split <;> rfl
  · unfold json_block; split <;> rfl
  · unfold request_raw
    split
    · rfl
    · cases previewTools tools <;> simp
      cases previewMessages msgs <;> simp
      cases serialize_messages msgs <;> simp
  · unfold response_raw; split <;> rfl
  · unfold messages_snapshot; split <;> rfl
  · unfold llm_request_summary; split <;> rfl
  · unfold llm_response_summary; split <;> rfl
  · unfold response_content_blocks; split <;> rfl
  · unfold loop_end sectionHeading; split <;> rfl
  · unfold loop_iteration; split <;> rfl
  · unfold loop_iteration; split <;> rfl

/-- C2 counterexample: with `verbose = false`, `loop_end` writes zero lines
(it delegates to the verbose-gated `section`), contradicting the claim that
it still produces at least one line. -/
theorem C2_counterexample : (loop_end ⟨false, true, 0⟩ "done").1 = [] := rfl

/-- C2 (amended): with `verbose = false`, `section`, `json_block`,
`loop_iteration`, `messages_snapshot`, `llm_request_summary`,
`llm_response_summary`, `response_content_blocks`, `separator` AND
`loop_end` write zero lines, while `header`, `tool_call`, `tool_result` and
`user_input` still produce at least one line, for every input. -/
theorem C2_verbose_gate (sr : Bool) (it n : Nat)
    (t ch sn txt icon ttl q reason now tid ct : String)
    (w indent cnt1 cnt2 : Nat) (c : String) (d : JValue)
    (msgs : List Message) (usage : List (String × Int))
    (bs : List Block) (inp : List (String × JValue)) (err : Bool) :
    (sectionHeading ⟨false, sr, it⟩ txt icon).1 = [] ∧
    (json_block ⟨false, sr, it⟩ ttl d indent c).1 = [] ∧
    (loop_iteration ⟨false, sr, it⟩ n).1 = [] ∧
    (messages_snapshot ⟨false, sr, it⟩ msgs ttl).1 = [] ∧
    (llm_request_summary ⟨false, sr, it⟩ t cnt1 cnt2 now).1 = [] ∧
    (llm_response_summary ⟨false, sr, it⟩ reason usage cnt1).1 = [] ∧
    (response_content_blocks ⟨false, sr, it⟩ bs).1.lines = [] ∧
    (separator ⟨false, sr, it⟩ t ch w).1 = [] ∧
    (loop_end ⟨false, sr, it⟩ reason).1 = [] ∧
    (header ⟨false, sr, it⟩ txt sn).1 ≠ [] ∧
    (tool_call ⟨false, sr, it⟩ t inp tid).1 ≠ [] ∧
    (tool_result ⟨false, sr, it⟩ tid ct err).1 ≠ [] ∧
    (user_input ⟨false, sr, it⟩ q).1 ≠ [] := by
  refine ⟨rfl, rfl, rfl, rfl, rfl, rfl, rfl, rfl, rfl, ?_, ?_, ?_, ?_⟩
  · simp [header]
  · simp [tool_call]
  · simp [tool_result]
  · simp [user_input]

/-- C3 counterexample: an attribute-form `tool_result` block serializes to
just its type tag, while the equivalent mapping-form block keeps
`tool_use_id`, so the two JSON structures differ. -/
theorem C3_counterexample :
    serialize_content
        [Block.attr ⟨some "tool_result", none, none, none, [], some "tu1"⟩] ≠
      serialize_content [Block.dict [("type", .jstr "tool_result"),
        ("tool_use_id", .jstr "tu1")]] := by
  simp [serialize_content, strOfOptTag]

/-- C3 (amended): serialization is representation-independent for the `text`
and `tool_use` variants — the attribute-form block serializes to exactly the
same JSON structure as the equivalent mapping-form block — but an
attribute-form `tool_result` block collapses to a mapping holding only its
type tag, dropping every other field. -/
theorem C3_serialize_repr_independence (s i n : String) (txt idv nv : Option String)
    (inp : List (String × JValue)) (tu : Option String) :
    serialize_content [Block.attr ⟨some "text", some s, idv, nv, inp, tu⟩] =
      serialize_content [Block.dict [("type", .jstr "text"), ("text", .jstr s)]] ∧
    serialize_content [Block.attr ⟨some "tool_use", txt, some i, some n, inp, tu⟩] =
      serialize_content [Block.dict [("type", .jstr "tool_use"), ("id", .jstr i),
        ("name", .jstr n), ("input", .jobj inp)]] ∧
    serialize_content [Block.attr ⟨some "tool_result", txt, idv, nv, inp, tu⟩] =
      [.jobj [("type", .jstr "tool_result")]] :=
  ⟨rfl, rfl, rfl⟩

theorem pyTake_of_le (s : String) (n : Nat) (h : strLen s ≤ n) :
    pyTake s n = s := by
  cases s with
  | mk data => exact congrArg String.mk (List.take_of_length_le h)

/-- C7: the id shown by `tool_call` (when non-empty) and by `tool_result` is
exactly `tool_id[:24] + "..."`; for an id of at most 24 characters the
display form is the whole id followed by `"..."`, and the truncation is
total (never raises). -/
theorem C7_id_display (st : LoggerState) (name : String)
    (inp : List (String × JValue)) (tid ct : String) (err : Bool) :
    idDisplay tid = pyTake tid 24 ++ "..." ∧
    (tid ≠ "" → (tool_call st name inp tid).1 =
      color "\n  ⚡ TOOL CALL" "green" ::
        key_value "id" (color (idDisplay tid) "dim") 4 "green" ::
        key_value "name" (color name "green") 4 "green" ::
        key_value "input" "" 4 "green" :: inp.map toolInputLine) ∧
    (tool_result st tid ct err).1 =
      [color ("\n  " ++ (if err then "❌" else "✓") ++ " TOOL RESULT")
          (if err then "red" else "blue"),
       key_value "tool_use_id" (idDisplay tid) 4 (if err then "red" else "blue"),
       key_value "content" (color ("\"" ++ (pyTake ct 300 ++
          (if strLen ct > 300 then "..." else "")) ++ "\"") "dim") 4
          (if err then "red" else "blue")] ∧
    (strLen tid ≤ 24 → idDisplay tid = tid ++ "...") := by
  refine ⟨rfl, ?_, rfl, ?_⟩
  · intro h
    simp [tool_call, h]
  · intro h
    unfold idDisplay
    rw [pyTake_of_le tid 24 h]

/-- C7 witness at a concrete short id. -/
theorem C7_witness :
    (tool_call ⟨true, true, 0⟩ "read_file" [] "toolu_abc").1 =
      color "\n  ⚡ TOOL CALL" "green" ::
        key_value "id" (color (idDisplay "toolu_abc") "dim") 4 "green" ::
        key_value "name" (color "read_file" "green") 4 "green" ::
        key_value "input" "" 4 "green" :: List.map toolInputLine [] ∧
    idDisplay "toolu_abc" = "toolu_abc" ++ "..." :=
  ⟨(C7_id_display ⟨true, true, 0⟩ "read_file" [] "toolu_abc" "" false).2.1
      (by decide),
   (C7_id_display ⟨true, true, 0⟩ "read_file" [] "toolu_abc" "" false).2.2.2
      (by decide)⟩

/-- C8: for a string-content message the snapshot preview line uses exactly
`content[:60]`, with `"..."` appended precisely when the content is longer
than 60 characters and the content shown verbatim otherwise. -/
theorem C8_snapshot_preview (sr : Bool) (it : Nat) (role s ttl : String) :
    (messages_snapshot ⟨true, sr, it⟩ [⟨some role, some (.cstr s)⟩] ttl).1 =
      [color ("\n  📋 " ++ ttl) "blue",
       color "  Total messages: 1" "dim",
       "    [0] " ++ color role (roleColor role) ++ ": " ++
         color (snapshotPreview s) "dim"] ∧
    (strLen s > 60 → snapshotPreview s = pyTake s 60 ++ "...") ∧
    (strLen s ≤ 60 → snapshotPreview s = s) := by
  refine ⟨?_, ?_, ?_⟩
  · simp [messages_snapshot, snapshotLines, snapshotLine]
    exact ⟨rfl, rfl⟩
  · intro h
    simp [snapshotPreview, h]
  · intro h
    have h2 : ¬ strLen s > 60 := by omega
    simp only [snapshotPreview, h2, if_false, ite_false]
    rw [String.append_empty]
    exact pyTake_of_le s 60 h

/-- A 61-character content string. -/
def s61 : String := String.mk (List.replicate 61 'b')

/-- C8 witness at concrete long and short contents. -/
theorem C8_witness :
    snapshotPreview s61 = pyTake s61 60 ++ "..." ∧ snapshotPreview "hi" = "hi" :=
  ⟨(C8_snapshot_preview true 0 "user" s61 "T").2.1 (by simp [s61, strLen]),
   (C8_snapshot_preview true 0 "user" "hi" "T").2.2 (by decide)⟩

theorem isPrefixOf_append_false {α : Type} [BEq α] [LawfulBEq α]
    (p h t : List α) (hne : (p.take h.length).isPrefixOf h = false) :
    p.isPrefixOf (h ++ t) = false := by
  refine Bool.eq_false_iff.mpr ?_
  intro hc
  rw [List.isPrefixOf_iff_prefix] at hc
  have h2 := hc.take h.length
  rw [List.take_left] at h2
  rw [Bool.eq_false_iff] at hne
  exact hne (List.isPrefixOf_iff_prefix.mpr h2)

theorem not_id_dim_line (t : String) :
    idLineLead.data.isPrefixOf (color t "dim").data = false := by
  have hd : (color t "dim").data =
      "\x1b[2m".data ++ (t.data ++ "\x1b[0m".data) := by
    show ((("\x1b[2m" : String) ++ t ++ "\x1b[0m").data) = _
    simp [List.append_assoc]
  rw [hd]
  exact isPrefixOf_append_false _ _ _ (by decide)

theorem not_id_name_line (v : String) :
    idLineLead.data.isPrefixOf (key_value "name" v 4 "green").data = false := by
  have hd : (key_value "name" v 4 "green").data =
      ("    " ++ color ("name" ++ ":") "green" ++ " ").data ++ v.data := rfl
  rw [hd]
  exact isPrefixOf_append_false _ _ _ (by decide)

theorem id_line_lead_prefix_true (v : String) :
    idLineLead.data.isPrefixOf (key_value "id" v 4 "green").data = true := by
  have hd : (key_value "id" v 4 "green").data = idLineLead.data ++ v.data := rfl
  rw [hd]
  simp

theorem not_id_head_line :
    idLineLead.data.isPrefixOf (color "\n  ⚡ TOOL CALL" "green").data = false := by
  decide

theorem not_id_input_header_line :
    idLineLead.data.isPrefixOf (key_value "input" "" 4 "green").data = false := by
  decide

theorem not_id_input_value_line (kv : String × JValue) :
    idLineLead.data.isPrefixOf (toolInputLine kv).data = false :=
  not_id_dim_line _

/-- C10: `tool_call` with the empty (defaulted) id prints no id line at all,
while any non-empty id produces exactly one id line. -/
theorem C10_id_line_presence (st : LoggerState) (name : String)
    (inp : List (String × JValue)) :
    countIdLines (tool_call st name inp "").1 = 0 ∧
    (∀ tid, tid ≠ "" → countIdLines (tool_call st name inp tid).1 = 1) := by
  have hmap : ∀ l : List (String × JValue),
      (l.map toolInputLine).countP (fun x => idLineLead.data.isPrefixOf x.data) = 0 := by
    intro l
    rw [List.countP_eq_zero]
    intro a ha
    obtain ⟨kv, _, rfl⟩ := List.mem_map.mp ha
    simp [not_id_input_value_line kv]
  constructor
  · unfold countIdLines
    simp [tool_call, List.countP_cons, List.countP_append, not_id_head_line,
      not_id_input_header_line, not_id_name_line, hmap]
  · intro tid h
    unfold countIdLines
    simp [tool_call, h, List.countP_cons, List.countP_append, not_id_head_line,
      not_id_input_header_line, not_id_name_line, id_line_lead_prefix_true, hmap]

/-- C10 witness at concrete ids. -/
theorem C10_witness :
    countIdLines (tool_call ⟨true, true, 0⟩ "read_file"
      [("path", .jstr "/tmp/x.txt")] "toolu_xyz").1 = 1 :=
  (C10_id_line_presence ⟨true, true, 0⟩ "read_file"
    [("path", .jstr "/tmp/x.txt")]).2 "toolu_xyz" (by decide)

/-- C6: in the compact request preview, string content becomes
`<text: N chars>`; each block of a block list is reduced, in input order, to
`tool_result(id=<first 16 of tool_use_id>...)`, `tool_use(name=<name>)`, or
its type tag (`"unknown"` when untagged), for attribute-form and
mapping-form blocks alike. -/
theorem C6_preview_tokens (role s tag tid nm : String) (bs : List AttrBlock)
    (blocks : List Block) (txt idv nv : Option String)
    (inp : List (String × JValue)) (tu : Option String)
    (fields : List (String × JValue)) :
    previewMessage ⟨some role, some (.cstr s)⟩ =
      .ok (.jobj [("role", .jstr role),
        ("content", .jstr ("<text: " ++ toString (strLen s) ++ " chars>"))]) ∧
    previewMessage ⟨some role, some (.clist blocks)⟩ =
      (blockSummaries blocks).map (fun l =>
        .jobj [("role", .jstr role), ("content", .jarr l)]) ∧
    blockSummaries (bs.map Block.attr) = .ok (bs.map attrSummary) ∧
    attrSummary ⟨some "tool_result", txt, idv, nv, inp, some tid⟩ =
      .jstr ("tool_result(id=" ++ pyTake tid 16 ++ "...)") ∧
    attrSummary ⟨some "tool_use", txt, idv, some nm, inp, tu⟩ =
      .jstr ("tool_use(name=" ++ nm ++ ")") ∧
    (tag ≠ "tool_result" → tag ≠ "tool_use" →
      attrSummary ⟨some tag, txt, idv, nv, inp, tu⟩ = .jstr tag) ∧
    attrSummary ⟨none, txt, idv, nv, inp, tu⟩ = .jstr "unknown" ∧
    (lookupKey fields "type" = some (.jstr "tool_result") →
      lookupKey fields "tool_use_id" = some (.jstr tid) →
      blockSummary (.dict fields) =
        .ok (.jstr ("tool_result(id=" ++ pyTake tid 16 ++ "...)"))) ∧
    (lookupKey fields "type" = some (.jstr "tool_use") →
      lookupKey fields "name" = some (.jstr nm) →
      blockSummary (.dict fields) =
        .ok (.jstr ("tool_use(name=" ++ nm ++ ")"))) ∧
    (lookupKey fields "type" = none →
      blockSummary (.dict fields) = .ok (.jstr "unknown")) := by
  refine ⟨rfl, ?_, ?_, rfl, rfl, ?_, rfl, ?_, ?_, ?_⟩
  · cases hb : blockSummaries blocks <;>
      (simp [previewMessage, hb, Except.map]; rfl)
  · induction bs with
    | nil => rfl
    | cons b tl ih =>
      simp [blockSummaries, blockSummary, ih]
      rfl
  · intro h1 h2
    simp [attrSummary, h1, h2]
  · intro h1 h2
    simp only [blockSummary, h1, h2, Option.getD_some]
    rfl
  · intro h1 h2
    simp only [blockSummary, h1, h2, Option.getD_some]
    rfl
  · intro h1
    simp only [blockSummary, h1, Option.getD_none]
    rfl

/-- C6 witness at concrete blocks of every variant. -/
theorem C6_witness :
    ("text" ≠ "tool_result" ∧ "text" ≠ "tool_use" ∧
      attrSummary ⟨some "text", none, none, none, [], none⟩ = .jstr "text") ∧
    (lookupKey [("type", JValue.jstr "tool_result"),
        ("tool_use_id", JValue.jstr "toolu_0123456789abcdef")] "type" =
        some (.jstr "tool_result") ∧
      blockSummary (.dict [("type", JValue.jstr "tool_result"),
        ("tool_use_id", JValue.jstr "toolu_0123456789abcdef")]) =
        .ok (.jstr ("tool_result(id=" ++
          pyTake "toolu_0123456789abcdef" 16 ++ "...)"))) ∧
    (lookupKey [("type", JValue.jstr "tool_use"),
        ("name", JValue.jstr "read_file")] "type" = some (.jstr "tool_use") ∧
      blockSummary (.dict [("type", JValue.jstr "tool_use"),
        ("name", JValue.jstr "read_file")]) =
        .ok (.jstr ("tool_use(name=" ++ "read_file" ++ ")"))) ∧
    (lookupKey [("data", JValue.jstr "x")] "type" = none ∧
      blockSummary (.dict [("data", JValue.jstr "x")]) = .ok (.jstr "unknown")) :=
  ⟨⟨by decide, by decide,
    (C6_preview_tokens "u" "" "text" "" "" [] [] none none none [] none
      []).2.2.2.2.2.1 (by decide) (by decide)⟩,
   ⟨rfl,
    (C6_preview_tokens "u" "" "x" "toolu_0123456789abcdef" "" [] [] none none
      none [] none [("type", JValue.jstr "tool_result"),
        ("tool_use_id", JValue.jstr "toolu_0123456789abcdef")]).2.2.2.2.2.2.2.1
      rfl rfl⟩,
   ⟨rfl,
    (C6_preview_tokens "u" "" "x" "" "read_file" [] [] none none none [] none
      [("type", JValue.jstr "tool_use"),
        ("name", JValue.jstr "read_file")]).2.2.2.2.2.2.2.2.1 rfl rfl⟩,
   ⟨rfl,
    (C6_preview_tokens "u" "" "x" "" "" [] [] none none none [] none
      [("data", JValue.jstr "x")]).2.2.2.2.2.2.2.2.2 rfl⟩⟩

theorem except_bind_error {e a b : Type} (x : e) (f : a → Except e b) :
    (Except.error x >>= f) = Except.error x := rfl

theorem except_bind_ok {e a b : Type} (x : a) (f : a → Except e b) :
    (Except.ok x >>= f) = f x := rfl

/-- C1 counterexample: `request_raw` with `show_raw` enabled propagates a
`KeyError` on a tool mapping lacking `"name"` and on a message mapping
lacking `"role"`, instead of completing with sentinel defaults. -/
theorem C1_counterexample :
    ((request_raw ⟨true, true, 0⟩ "m" "sys" [] [[]] 8000).1).error =
      some "KeyError: name" ∧
    ((request_raw ⟨true, true, 0⟩ "m" "sys" [⟨none, none⟩] [] 8000).1).error =
      some "KeyError: role" :=
  ⟨rfl, rfl⟩

/-- C1 (amended): renderers that read optional fields through
`dict.get`/`getattr` recover missing fields with sentinel defaults
(`"unknown"` role in `messages_snapshot`, `"unknown"` block type, empty-string
ids/names) and never raise, but `request_raw` indexes `t["name"]`,
`t["description"]` and `msg["role"]` directly and propagates a `KeyError` to
the caller when the key is missing. -/
theorem C1_missing_key_raises (st : LoggerState) (h : st.show_raw = true)
    (model system : String) (msgs : List Message) (mt : Int)
    (t : List (String × JValue)) (ht : lookupKey t "name" = none)
    (ts : List (List (String × JValue)))
    (m : Message) (hr : m.role = none) (hv : st.verbose = true)
    (s ttl : String) :
    ((request_raw st model system msgs (t :: ts) mt).1).error =
      some "KeyError: name" ∧
    ((request_raw st model system (m :: msgs) [] mt).1).error =
      some "KeyError: role" ∧
    (messages_snapshot st [⟨none, some (.cstr s)⟩] ttl).1 =
      [color ("\n  📋 " ++ ttl) "blue", color "  Total messages: 1" "dim",
       "    [0] " ++ color "unknown" "white" ++ ": " ++
         color (snapshotPreview s) "dim"] ∧
    attrSummary ⟨none, none, none, none, [], none⟩ = .jstr "unknown" := by
  refine ⟨?_, ?_, ?_, rfl⟩
  · simp [request_raw, h, previewTools, previewTool, ht, except_bind_error,
      except_bind_ok]
  · simp [request_raw, h, previewTools, previewMessages, previewMessage, hr,
      except_bind_error, except_bind_ok]
  · simp [messages_snapshot, hv, snapshotLines, snapshotLine, roleColor]
    exact ⟨rfl, rfl⟩

/-- C1 witness: the amended behaviour at concrete inputs. -/
theorem C1_witness :
    ((request_raw ⟨true, true, 0⟩ "m" "sys" [] ([] :: []) 8000).1).error =
      some "KeyError: name" ∧
    ((request_raw ⟨true, true, 0⟩ "m" "sys"
        ((⟨none, none⟩ : Message) :: []) [] 8000).1).error =
      some "KeyError: role" ∧
    (messages_snapshot ⟨true, true, 0⟩ [⟨none, some (.cstr "hello")⟩] "T").1 =
      [color ("\n  📋 " ++ "T") "blue", color "  Total messages: 1" "dim",
       "    [0] " ++ color "unknown" "white" ++ ": " ++
         color (snapshotPreview "hello") "dim"] ∧
    attrSummary ⟨none, none, none, none, [], none⟩ = .jstr "unknown" :=
  C1_missing_key_raises ⟨true, true, 0⟩ rfl "m" "sys" [] 8000 [] rfl []
    ⟨none, none⟩ rfl rfl "hello" "T"

/-- C4 (amended): for a 150-character system prompt the structure preview
shows exactly the first 100 characters plus `"..."`, and the `full_request`
structure still holds the untruncated prompt — but the code-block printer
clips every emitted line to at most 74 payload characters, so no printed
line of the full JSON dump contains the 150-character string. -/
theorem C4_system_truncation (model system : String) (mt : Int)
    (tools : List (List (String × JValue))) (sm : List JValue)
    (h : strLen system = 150) :
    previewSystem system = pyTake system 100 ++ "..." ∧
    fullRequest model mt system tools sm =
      .jobj [("model", .jstr model), ("max_tokens", .jnum mt),
             ("system", .jstr system),
             ("tools", .jarr (tools.map JValue.jobj)),
             ("messages", .jarr sm)] ∧
    ∀ l ∈ print_code_block (fullRequest model mt system tools sm),
      ¬ system.data <:+: l.data := by
  refine ⟨?_, rfl, ?_⟩
  · simp [previewSystem, h]
  · intro l hl
    have h1 := print_code_block_line_len (fullRequest model mt system tools sm) l hl
    exact not_infix_of_shorter _ _ (by omega)

/-- C4 witness: the 150-character hypothesis holds at `sys150` and the
preview equality follows from the theorem there. -/
theorem C4_witness :
    strLen sys150 = 150 ∧ previewSystem sys150 = pyTake sys150 100 ++ "..." :=
  ⟨by simp [sys150, strLen],
   (C4_system_truncation "claude-3" sys150 8000 [] []
      (by simp [sys150, strLen])).1⟩

/-- C4 counterexample: with a 150-character system prompt, no line emitted by
the bordered code block around the full request JSON contains the
untruncated prompt, contrary to the claim. -/
theorem C4_counterexample :
    linesContain (print_code_block (fullRequest "claude-3" 8000 sys150 [] []))
      sys150 = false := by
  unfold linesContain
  rw [List.any_eq_false]
  intro l hl
  simp only [decide_eq_true_eq]
  have h1 := print_code_block_line_len (fullRequest "claude-3" 8000 sys150 [] []) l hl
  have h2 : strLen sys150 = 150 := by simp [sys150, strLen]
  exact not_infix_of_shorter _ _ (by omega)
